import Mathlib

/-!
Shallow embedding of the flask-restful scaffold repository:
`src/app.py` (application factory, global exception handler, JSON encoder,
logging configuration) and `src/models/query_model/__init__.py` (the
declarative query-model layer over flask_restful's request parser).

Machine integers do not occur; HTTP status codes are natural numbers.
Python dictionaries are association lists with `List.lookup`; Python
exceptions are an `Except` error channel.
-/

namespace FlaskScaffold

/-- Python runtime values as they occur in parsed request arguments,
enum tuples and parser keyword arguments: `None`, ints, strings, booleans. -/
inductive PyVal where
  | none : PyVal
  | int : Int → PyVal
  | str : String → PyVal
  | bool : Bool → PyVal
deriving DecidableEq, Repr

/-- Exceptions the embedded code can raise: `InvalidArgumentException`
(from the repository's `exceptions` module) with its message, `TypeError`
(raised by `json.JSONEncoder.default`), and `NameError` with the
unresolvable name. -/
inductive PyErr where
  | invalidArgument : String → PyErr
  | typeError : PyErr
  | nameError : String → PyErr
deriving DecidableEq, Repr

/-- A `QueryField` instance (src/models/query_model/__init__.py, lines 7-19)
after `__init__` ran: the attributes assigned by `Field.__init__` (the base
class from the external `models` module) and by `QueryField.__init__` itself.
`default` is `some v` exactly when the attribute was assigned (the source
assigns it only when the extra keyword arguments contain the key
`"default"`).  `kwargs` is the attribute the registration loop of
`parse_args` reads as `field.kwargs`; it is distinct from `parser_kwargs`,
the attribute `QueryField.__init__` assigns from its own extra keyword
arguments.  `name` is the field's attribute name bound by the declaring
class. -/
structure QueryField where
  name : String
  field_type : PyVal
  mock_func : Bool
  enum_values : List PyVal
  description : String
  nullable : Bool
  required : Bool
  location : PyVal
  parser_kwargs : List (String × PyVal)
  parse_func : Option String
  default : Option PyVal
  kwargs : List (String × PyVal)
deriving DecidableEq, Repr

/-- `QueryField.__init__(field_type, location, parser_func, required,
mock_func, enum_values, comment, nullable, **kwargs)` (lines 11-19).  It
calls `super().__init__(field_type, mock_func, enum_values, comment,
nullable)` and then assigns `location`, `parser_kwargs` (the extra keyword
arguments), `required`, `parse_func`, and - only when `'default' in kwargs` -
`default`.

Modelled from the spec: the `Field` base class lives in the external
`models` module, absent from the repository's files.  Following the spec's
description of a field (location, type, required/nullable, enum constraints,
default), it stores the five values it receives, plus a `kwargs` attribute
holding the extra keyword arguments passed to it - `QueryField.__init__`
passes none, so that attribute is the empty dictionary.  The field `name`
is likewise bound externally by the declaring-class machinery of
`BaseModel`. -/
def QueryField.init (name : String) (field_type : PyVal) (location : PyVal)
    (parser_func : Option String) (required : Bool) (mock_func : Bool)
    (enum_values : List PyVal) (comment : String) (nullable : Bool)
    (kwargs : List (String × PyVal)) : QueryField :=
  { name := name
    field_type := field_type
    mock_func := mock_func
    enum_values := enum_values
    description := comment
    nullable := nullable
    required := required
    location := location
    parser_kwargs := kwargs
    parse_func := parser_func
    default := kwargs.lookup "default"
    kwargs := [] }

/-- A `QueryField(field_type, location, **kwargs)` call that leaves every
optional parameter at its Python default: `parser_func=None`,
`required=False`, `mock_func=False`, `enum_values=()`, `comment=""`,
`nullable=True`. -/
def QueryField.initDefaults (name : String) (field_type location : PyVal)
    (kwargs : List (String × PyVal)) : QueryField :=
  QueryField.init name field_type location Option.none false false [] "" true kwargs

/-- The arguments of one `parser.add_argument(field.name,
type=field.parse_func, location=field.location, required=field.required,
nullable=field.nullable, **field.kwargs)` call made by the registration
loop of `BaseQueryModel.parse_args` (lines 35-36). -/
structure AddArgumentCall where
  name : String
  type : Option String
  location : PyVal
  required : Bool
  nullable : Bool
  extra : List (String × PyVal)
deriving DecidableEq, Repr

/-- One iteration of the registration loop of `parse_args`: note that the
expansion `**field.kwargs` reads the attribute `kwargs`, not the attribute
`parser_kwargs` in which `QueryField.__init__` stored its extra keyword
arguments. -/
def register_field (field : QueryField) : AddArgumentCall :=
  { name := field.name
    type := field.parse_func
    location := field.location
    required := field.required
    nullable := field.nullable
    extra := field.kwargs }

/-- The full registration loop `for field in cls.__fields__:
parser.add_argument(...)` of `parse_args` (lines 34-36): one
`add_argument` call per declared field, in declaration order, and no
other call. -/
def register_args (fields : List QueryField) : List AddArgumentCall :=
  fields.map register_field

/-- The enum-validation loop of `parse_args` (lines 40-44): for each field,
when `field.enum_values` is truthy (non-empty) and `field.name in parsed`,
the parsed value is fetched, and when it `is not None and ... not in
field.enum_values`, `InvalidArgumentException` is raised.  Membership of
`field.name` in the parsed dictionary and the fetch `parsed[field.name]`
are combined into one `List.lookup`. -/
def enum_check : List QueryField → List (String × PyVal) → Except PyErr Unit
  | [], _ => Except.ok ()
  | field :: rest, parsed =>
    match parsed.lookup field.name with
    | Option.some value =>
      if field.enum_values ≠ [] ∧ value ≠ PyVal.none ∧ value ∉ field.enum_values then
        Except.error (PyErr.invalidArgument
          ("参数 [" ++ field.name ++ "] 的值必须在 [" ++ reprStr field.enum_values ++ "] 中"))
      else enum_check rest parsed
    | Option.none => enum_check rest parsed

/-- The attribute dictionary of a Python instance: attribute name to value. -/
abbrev Attrs := List (String × PyVal)

/-- Python's `delattr(self, field_name)`: the attribute is removed from the
instance's attribute dictionary. -/
def delattr (a : Attrs) (k : String) : Attrs :=
  a.filter (fun p => p.1 != k)

/-- Modelled from the spec: `BaseModel.__init__(drop_missing=False,
**kwargs)` of the external `models` module, absent from the repository's
files.  Called with `drop_missing=False` it assigns every declared field
name an instance attribute - the keyword argument's value when the name is
a key of `kwargs`, Python `None` otherwise (so that the `delattr` loop of
`BaseQueryModel.__init__` always finds an attribute to delete). -/
def BaseModel.init (fields_map : List String) (kwargs : List (String × PyVal)) : Attrs :=
  fields_map.map (fun n =>
    (n, match kwargs.lookup n with
        | Option.some v => v
        | Option.none => PyVal.none))

/-- A `BaseQueryModel` instance: `storage` is `__storage__` and `attrs` the
instance's field attributes. -/
structure ModelInstance where
  storage : List (String × PyVal)
  attrs : Attrs
deriving DecidableEq, Repr

/-- `BaseQueryModel.__init__(**kwargs)` (lines 26-31): calls
`super().__init__(drop_missing=False, **kwargs)`, sets
`self.__storage__ = kwargs`, then for every declared field name that is not
a key of `__storage__` deletes the instance attribute. -/
def BaseQueryModel.init (fields_map : List String)
    (kwargs : List (String × PyVal)) : ModelInstance :=
  let base := BaseModel.init fields_map kwargs
  let attrs := fields_map.foldl
    (fun a field_name =>
      if (kwargs.lookup field_name).isSome then a else delattr a field_name)
    base
  { storage := kwargs, attrs := attrs }

/-- `BaseQueryModel.as_dict` (lines 49-50): returns `self.__storage__`. -/
def ModelInstance.as_dict (m : ModelInstance) : List (String × PyVal) :=
  m.storage

/-- `BaseQueryModel.get(item, default=None)` (lines 52-53): dictionary
`get` on `__storage__`. -/
def ModelInstance.get (m : ModelInstance) (item : String) (dflt : PyVal) : PyVal :=
  match m.storage.lookup item with
  | Option.some v => v
  | Option.none => dflt

/-- `BaseQueryModel.__contains__(item)` (lines 55-56): key membership in
`__storage__`. -/
def ModelInstance.contains (m : ModelInstance) (item : String) : Bool :=
  (m.storage.lookup item).isSome

/-- `BaseQueryModel.parse_args` (lines 30-47).  The
`parser.parse_args()` call is the external flask_restful request parse;
its outcome - the parsed dictionary of a successfully parsed request - is
the parameter `parsed`.  The returned pair records the `add_argument`
calls issued to the parser and the outcome: the enum-validation loop runs
on `parsed`, and when it raises nothing the instance `cls(**parsed)` is
returned.  `cls.__fields_map__.keys()` is the declared field names, here
`fields.map QueryField.name`. -/
def parse_args (fields : List QueryField) (parsed : List (String × PyVal)) :
    List AddArgumentCall × Except PyErr ModelInstance :=
  let calls := register_args fields
  match enum_check fields parsed with
  | Except.error e => (calls, Except.error e)
  | Except.ok _ =>
      (calls, Except.ok (BaseQueryModel.init (fields.map QueryField.name) parsed))

/-- The names bound at the top level of `src/models/query_model/__init__.py`:
its four imports (`from flask_restful import reqparse`, `from models import
Field, ApiDataType, BaseModel`, `from exceptions.exceptions import
InvalidArgumentException`) and the three classes it defines.  `pprint` is
never imported. -/
def query_model_globals : List String :=
  ["reqparse", "Field", "ApiDataType", "BaseModel", "InvalidArgumentException",
   "QueryField", "BaseQueryModel", "NoArgs"]

/-- The Python builtin names the module's code refers to.  `pprint` is a
standard-library module that must be imported to be visible; it is not a
builtin. -/
def python_builtins : List String :=
  ["isinstance", "str", "super", "classmethod", "delattr", "format", "type"]

/-- Name resolution for a free name inside a method of the module: module
globals, then builtins. -/
def name_resolves (n : String) : Bool :=
  query_model_globals.contains n || python_builtins.contains n

/-- `BaseQueryModel.__str__` (lines 58-59): evaluates
`'[<{}>: \n{}]'.format(self.__class__.__name__,
pprint.pformat(self.__storage__, indent=4))`.  Evaluating the name
`pprint` resolves it against the module's globals and the builtins; when it
resolves, the formatted string is produced with the (abstract) `pformat`
rendering, otherwise `NameError` is raised. -/
def ModelInstance.py_str (pformat : List (String × PyVal) → String)
    (cls_name : String) (m : ModelInstance) : Except PyErr String :=
  if name_resolves "pprint" then
    Except.ok ("[<" ++ cls_name ++ ">: \n" ++ pformat m.storage ++ "]")
  else
    Except.error (PyErr.nameError "pprint")

/-- An exception reaching the global handler of `src/app.py`: a werkzeug
`HTTPException` (carrying its status `code`), a `ServerException` from the
repository's `exceptions` module (modelled from the spec: it carries a
status `code`, read by `handle_exception` exactly as an `HTTPException`'s),
or any other exception.  The string is `str(e)`. -/
inductive Exc where
  | http : Nat → String → Exc
  | server : Nat → String → Exc
  | other : String → Exc
deriving DecidableEq, Repr

/-- The resolved status code of `handle_exception` (lines 65-67):
`code = 500`, overwritten with `e.code` when
`isinstance(e, (HTTPException, ServerException))`. -/
def resolved_code : Exc → Nat
  | Exc.http c _ => c
  | Exc.server c _ => c
  | Exc.other _ => 500

/-- Python `str(e)` on the exception. -/
def Exc.py_str : Exc → String
  | Exc.http _ s => s
  | Exc.server _ s => s
  | Exc.other s => s

/-- A value of the response body dictionary built by `handle_exception`. -/
inductive BodyVal where
  | int : Nat → BodyVal
  | str : String → BodyVal
  | strList : List String → BodyVal
deriving DecidableEq, Repr

/-- What one `handle_exception` call produces: the body dictionary, the
HTTP status it is paired with, and whether `send_dingding_alert` was
called. -/
structure HandlerResult where
  body : List (String × BodyVal)
  status : Nat
  alert_sent : Bool
deriving DecidableEq, Repr

/-- `handle_exception(e)` (src/app.py, lines 64-73).  `formatted_tb` is the
string `traceback.format_exc(limit=10)` returned for the active exception
(runtime state of the interpreter); the code splits it on `"\n"` into the
traceback list.  The alert condition is the source's
`str(code) == "500"`, with `Nat.repr` as Python `str` on the integer
code.  The returned body is the literal dictionary
`{'error_code': code, 'error_msg': str(e), 'traceback': exc}`, paired with
`code` as the HTTP status. -/
def handle_exception (e : Exc) (formatted_tb : String) : HandlerResult :=
  let code := resolved_code e
  let exc := (formatted_tb.splitOn "\n").map (fun v => v)
  let alert := Nat.repr code == "500"
  { body := [("error_code", BodyVal.int code),
             ("error_msg", BodyVal.str e.py_str),
             ("traceback", BodyVal.strList exc)]
    status := code
    alert_sent := alert }

/-- The input shapes `JsonEncoder.default` distinguishes (src/app.py,
lines 26-33): a `datetime.datetime` (year, month, day, hour, minute,
second), a `datetime.date` (year, month, day; its time components render
as zero under `%H:%M:%S`), a `traceback.FrameSummary` (carrying its
`str(value)` rendering), or any other value. -/
inductive JsonInput where
  | datetime : Nat → Nat → Nat → Nat → Nat → Nat → JsonInput
  | date : Nat → Nat → Nat → JsonInput
  | frameSummary : String → JsonInput
  | other : PyVal → JsonInput
deriving DecidableEq, Repr

/-- Zero-padding to two digits, as `%m`, `%d`, `%H`, `%M`, `%S` render. -/
def pad2 (n : Nat) : String :=
  if n < 10 then "0" ++ Nat.repr n else Nat.repr n

/-- Zero-padding to four digits, as `%Y` renders. -/
def pad4 (n : Nat) : String :=
  if n < 10 then "000" ++ Nat.repr n
  else if n < 100 then "00" ++ Nat.repr n
  else if n < 1000 then "0" ++ Nat.repr n
  else Nat.repr n

/-- `value.strftime("%Y-%m-%d %H:%M:%S")`. -/
def strftime_datetime (y mo d h mi s : Nat) : String :=
  pad4 y ++ "-" ++ pad2 mo ++ "-" ++ pad2 d ++ " "
    ++ pad2 h ++ ":" ++ pad2 mi ++ ":" ++ pad2 s

/-- `JsonEncoder.default(value)` (src/app.py, lines 26-33): datetimes and
dates render through `strftime("%Y-%m-%d %H:%M:%S")`, a `FrameSummary`
through `str(value)`, and everything else falls through to
`json.JSONEncoder.default`, which raises `TypeError`. -/
def JsonEncoder.default : JsonInput → Except PyErr String
  | JsonInput.datetime y mo d h mi s => Except.ok (strftime_datetime y mo d h mi s)
  | JsonInput.date y mo d => Except.ok (strftime_datetime y mo d 0 0 0)
  | JsonInput.frameSummary s => Except.ok s
  | JsonInput.other _ => Except.error PyErr.typeError

/-- The observable configuration state of the Flask application object as
`create_app` builds it: `config` entries, registered blueprints (opaque
registration units, by name), installed error handlers (exception class
name paired with the handler function), the installed JSON encoder, CORS,
and whether `db.init_app` ran. -/
structure AppState where
  config : List (String × String)
  blueprints : List String
  error_handlers : List (String × (Exc → String → HandlerResult))
  json_encoder : Option (JsonInput → Except PyErr String)
  cors : Bool
  db_inited : Bool

/-- `Flask(__name__)`: a fresh application with nothing registered. -/
def Flask_new : AppState :=
  { config := []
    blueprints := []
    error_handlers := []
    json_encoder := Option.none
    cors := false
    db_inited := false }

/-- `CORS(app, supports_credentials=True)`. -/
def CORS (app : AppState) : AppState :=
  { app with cors := true }

/-- `register_blueprints(app)` (src/app.py, lines 56-60): registers every
blueprint of `all_blueprints`, in order. -/
def register_blueprints (all_blueprints : List String) (app : AppState) : AppState :=
  all_blueprints.foldl
    (fun a blueprint => { a with blueprints := a.blueprints ++ [blueprint] }) app

/-- `init_config(app)` (src/app.py, lines 45-54): sets the two SQLAlchemy
config keys from `settings`, registers the blueprints, installs
`handle_exception` as the error handler for `Exception`, and initialises
the database binding. -/
def init_config (uri track : String) (all_blueprints : List String)
    (app : AppState) : AppState :=
  let app := { app with
    config := app.config ++ [("SQLALCHEMY_DATABASE_URI", uri),
                             ("SQLALCHEMY_TRACK_MODIFICATIONS", track)] }
  let app := register_blueprints all_blueprints app
  let app := { app with
    error_handlers := app.error_handlers ++ [("Exception", handle_exception)] }
  { app with db_inited := true }

/-- `create_app()` (src/app.py, lines 36-42): fresh app, CORS,
`init_config`, then `app.json_encoder = JsonEncoder`. -/
def create_app (uri track : String) (all_blueprints : List String) : AppState :=
  let app := Flask_new
  let app := CORS app
  let app := init_config uri track all_blueprints app
  { app with json_encoder := Option.some JsonEncoder.default }

/-- One handler entry of the `dictConfig` dictionary built by
`init_logging`: its `level`, `formatter`, `class`, and the remaining
literal entries (filename, when, interval, encoding). -/
structure HandlerCfg where
  level : String
  formatter : String
  cls : String
  extras : List (String × String)
deriving DecidableEq, Repr

/-- One logger entry of the `dictConfig` dictionary. -/
structure LoggerCfg where
  handlers : List String
  level : String
  propagate : Bool
deriving DecidableEq, Repr

/-- The `dictConfig` dictionary of `init_logging`. -/
structure LoggingConfig where
  version : Nat
  disable_existing_loggers : Bool
  formatters : List (String × String)
  handlers : List (String × HandlerCfg)
  loggers : List (String × LoggerCfg)
deriving DecidableEq, Repr

/-- `"./log/{}".format(socket.gethostname())`. -/
def log_dir (hostname : String) : String :=
  "./log/" ++ hostname

/-- The configuration dictionary `init_logging` installs (src/app.py,
lines 76-135): `level` is `'INFO' if settings.NAMESPACE == 'PRODUCTION'
else 'DEBUG'`, and that one value is written into all four handler entries
and both logger entries. -/
def init_logging_config (namespace_value hostname : String) : LoggingConfig :=
  let level := if namespace_value = "PRODUCTION" then "INFO" else "DEBUG"
  let dir_name := log_dir hostname
  { version := 1
    disable_existing_loggers := false
    formatters :=
      [("brief", "%(message)s"),
       ("standard",
        "[%(asctime)s] [%(levelname)s]  [%(filename)s.%(funcName)s:%(lineno)3d]  [%(process)d::%(thread)d] %(message)s")]
    handlers :=
      [("default",
        { level := level
          formatter := "standard"
          cls := "logging.handlers.TimedRotatingFileHandler"
          extras := [("filename", dir_name ++ "/server.log"), ("when", "midnight"),
                     ("interval", "1"), ("encoding", "utf8")] }),
       ("console",
        { level := level
          formatter := "standard"
          cls := "logging.StreamHandler"
          extras := [] }),
       ("default_access",
        { level := level
          formatter := "brief"
          cls := "logging.handlers.TimedRotatingFileHandler"
          extras := [("filename", dir_name ++ "/access.log"), ("when", "midnight"),
                     ("interval", "1"), ("encoding", "utf8")] }),
       ("console_access",
        { level := level
          formatter := "brief"
          cls := "logging.StreamHandler"
          extras := [] })]
    loggers :=
      [("werkzeug",
        { handlers := ["default_access", "console_access"]
          level := level
          propagate := false }),
       ("",
        { handlers := ["default", "console"]
          level := level
          propagate := false })] }

/-- The decimal value of a digit character, `'0'` ↦ 0 … `'9'` ↦ 9. -/
def charToDigit (c : Char) : Nat :=
  c.toNat - 48

/-- Left-to-right decimal reading of a character list onto an
accumulator. -/
def parseList : List Char → Nat → Nat
  | [], acc => acc
  | c :: cs, acc => parseList cs (acc * 10 + charToDigit c)

/-- Decimal reading of a whole string. -/
def parseString (s : String) : Nat :=
  parseList s.data 0

/-- The field a `QueryField(field_type, location, default=0)` declaration
produces: its extra keyword arguments are stored in `parser_kwargs`. -/
def sample_default_field : QueryField :=
  QueryField.initDefaults "page" (PyVal.str "Integer") (PyVal.str "args")
    [("default", PyVal.int 0)]

/-! ## Theorems -/

theorem charToDigit_digitChar : ∀ d : Nat, d < 10 → charToDigit (Nat.digitChar d) = d := by
  decide

theorem parseList_toDigitsCore (f : Nat) :
    ∀ (n : Nat), n < f → ∀ (rest : List Char) (acc : Nat),
      ∃ k : Nat,
        parseList (Nat.toDigitsCore 10 f n rest) acc
          = parseList rest (acc * 10 ^ (k + 1) + n) ∧ n < 10 ^ (k + 1) := by
  induction f with
  | zero => intro n hn; exact absurd hn (Nat.not_lt_zero n)
  | succ f ih =>
    intro n hn rest acc
    by_cases h0 : n / 10 = 0
    · have hn10 : n < 10 := by omega
      refine ⟨0, ?_, by simpa using hn10⟩
      have hu : Nat.toDigitsCore 10 (f + 1) n rest = Nat.digitChar (n % 10) :: rest := by
        simp [Nat.toDigitsCore, h0]
      rw [hu]
      have hmod : n % 10 = n := Nat.mod_eq_of_lt hn10
      simp [parseList, hmod, charToDigit_digitChar n hn10]
    · have hlt : n / 10 < f := by
        have h1 : n / 10 < n := Nat.div_lt_self (by omega) (by norm_num)
        omega
      obtain ⟨k, hk, hb⟩ := ih (n / 10) hlt (Nat.digitChar (n % 10) :: rest) acc
      refine ⟨k + 1, ?_, ?_⟩
      · have hu : Nat.toDigitsCore 10 (f + 1) n rest
            = Nat.toDigitsCore 10 f (n / 10) (Nat.digitChar (n % 10) :: rest) := by
          simp [Nat.toDigitsCore, h0]
        rw [hu, hk]
        show parseList rest
            ((acc * 10 ^ (k + 1) + n / 10) * 10 + charToDigit (Nat.digitChar (n % 10))) = _
        rw [charToDigit_digitChar (n % 10) (Nat.mod_lt n (by norm_num))]
        congr 1
        have hdm : 10 * (n / 10) + n % 10 = n := Nat.div_add_mod n 10
        have hp : 10 ^ (k + 1 + 1) = 10 ^ (k + 1) * 10 := pow_succ 10 (k + 1)
        calc (acc * 10 ^ (k + 1) + n / 10) * 10 + n % 10
            = acc * (10 ^ (k + 1) * 10) + (10 * (n / 10) + n % 10) := by ring
          _ = acc * 10 ^ (k + 1 + 1) + n := by rw [hdm, hp]
      · have hp : 10 ^ (k + 1 + 1) = 10 ^ (k + 1) * 10 := pow_succ 10 (k + 1)
        omega

/-- Reading back the decimal rendering of a natural number gives the
number: `Nat.repr` (the embedding of Python `str` on a nonnegative int)
is left-inverted by `parseString`. -/
theorem parseString_repr (n : Nat) : parseString (Nat.repr n) = n := by
  obtain ⟨k, hk, -⟩ := parseList_toDigitsCore (n + 1) n (Nat.lt_succ_self n) [] 0
  show parseList (Nat.toDigitsCore 10 (n + 1) n []) 0 = n
  rw [hk]
  simp [parseList]

/-- Only 500 renders as the string "500". -/
theorem repr_eq_500 {c : Nat} (h : Nat.repr c = "500") : c = 500 := by
  have h2 := congrArg parseString h
  rw [parseString_repr] at h2
  have h3 : parseString "500" = 500 := by decide
  omega

/-- C2: handle_exception sends a DingTalk alert (calls send_dingding_alert)
if and only if the resolved status code is 500; the code is e.code when e
is an HTTPException or ServerException and 500 for every other exception,
so non-HTTP exceptions always trigger the alert and HTTP exceptions
trigger it exactly when their code is 500. -/
theorem handle_exception_alert_iff_500 (tb : String) :
    (∀ e : Exc, ((handle_exception e tb).alert_sent = true ↔ resolved_code e = 500)) ∧
    (∀ c : Nat, ∀ msg : String,
        resolved_code (Exc.http c msg) = c ∧ resolved_code (Exc.server c msg) = c) ∧
    (∀ msg : String, resolved_code (Exc.other msg) = 500) ∧
    (∀ msg : String, (handle_exception (Exc.other msg) tb).alert_sent = true) ∧
    (∀ c : Nat, ∀ msg : String,
        ((handle_exception (Exc.http c msg) tb).alert_sent = true ↔ c = 500) ∧
        ((handle_exception (Exc.server c msg) tb).alert_sent = true ↔ c = 500)) := by
  have key : ∀ c : Nat, ((Nat.repr c == "500") = true ↔ c = 500) := by
    intro c
    constructor
    · intro h
      exact repr_eq_500 (by simpa using h)
    · rintro rfl
      rfl
  refine ⟨fun e => ?_, fun c msg => ⟨rfl, rfl⟩, fun msg => rfl,
    fun msg => (key 500).mpr rfl, fun c msg => ⟨?_, ?_⟩⟩
  · show (Nat.repr (resolved_code e) == "500") = true ↔ _
    exact key (resolved_code e)
  · show (Nat.repr c == "500") = true ↔ _
    exact key c
  · show (Nat.repr c == "500") = true ↔ _
    exact key c

/-- C3: handle_exception returns a body that is a dict with exactly the
keys error_code, error_msg and traceback - error_code the resolved code,
error_msg str(e), traceback the lines of the formatted traceback - paired
with an HTTP status equal to that same resolved code. -/
theorem handle_exception_body_status (e : Exc) (tb : String) :
    (handle_exception e tb).body
      = [("error_code", BodyVal.int (resolved_code e)),
         ("error_msg", BodyVal.str e.py_str),
         ("traceback", BodyVal.strList (tb.splitOn "\n"))] ∧
    (handle_exception e tb).status = resolved_code e := by
  constructor
  · simp [handle_exception]
  · rfl

/-- C5: a QueryField constructed without explicit flags has required =
False and nullable = True, and its default attribute equals the extra
keyword argument "default" exactly when one was supplied (no attribute
otherwise). -/
theorem queryfield_init_defaults (name : String) (ft loc : PyVal)
    (kwargs : List (String × PyVal)) :
    (QueryField.initDefaults name ft loc kwargs).required = false ∧
    (QueryField.initDefaults name ft loc kwargs).nullable = true ∧
    (QueryField.initDefaults name ft loc kwargs).default = kwargs.lookup "default" :=
  ⟨rfl, rfl, rfl⟩

/-- C4 at its failing input: a field declared with the extra parser
keyword argument default=0 stores it in parser_kwargs, but the
add_argument call of parse_args expands field.kwargs - the empty
dictionary - so the stored extra keyword arguments are not the ones
registered with the parser. -/
theorem add_argument_drops_parser_kwargs :
    sample_default_field.parser_kwargs = [("default", PyVal.int 0)] ∧
    (register_field sample_default_field).extra = [] ∧
    ¬ (register_field sample_default_field).extra = sample_default_field.parser_kwargs :=
  ⟨rfl, rfl, by decide⟩

/-- C9: calling __str__ on any BaseQueryModel instance raises NameError,
whatever pformat would render, because the name pprint resolves against
neither the module's globals nor the builtins. -/
theorem py_str_raises_nameError (pformat : List (String × PyVal) → String)
    (cls_name : String) (m : ModelInstance) :
    ModelInstance.py_str pformat cls_name m
      = Except.error (PyErr.nameError "pprint") := rfl

/-- C10: JsonEncoder.default renders datetimes and dates in
"%Y-%m-%d %H:%M:%S" format, renders a FrameSummary as str(value), raises
TypeError on every other value, and is installed as the application's
JSON encoder by create_app. -/
theorem json_encoder_total_spec :
    (∀ y mo d h mi s : Nat,
        JsonEncoder.default (JsonInput.datetime y mo d h mi s)
          = Except.ok (strftime_datetime y mo d h mi s)) ∧
    (∀ y mo d : Nat,
        JsonEncoder.default (JsonInput.date y mo d)
          = Except.ok (strftime_datetime y mo d 0 0 0)) ∧
    (∀ s : String,
        JsonEncoder.default (JsonInput.frameSummary s) = Except.ok s) ∧
    (∀ v : PyVal,
        JsonEncoder.default (JsonInput.other v) = Except.error PyErr.typeError) ∧
    (∀ uri track : String, ∀ bps : List String,
        (create_app uri track bps).json_encoder = Option.some JsonEncoder.default) :=
  ⟨fun _ _ _ _ _ _ => rfl, fun _ _ _ => rfl, fun _ => rfl, fun _ => rfl,
   fun _ _ _ => rfl⟩

/-- register_blueprints only appends the given blueprints, in order, to
the application's blueprint list and changes nothing else. -/
theorem register_blueprints_spec (l : List String) :
    ∀ app : AppState,
      register_blueprints l app = { app with blueprints := app.blueprints ++ l } := by
  induction l with
  | nil => intro app; simp [register_blueprints]
  | cons bp rest ih =>
    intro app
    have h1 : register_blueprints (bp :: rest) app
        = register_blueprints rest { app with blueprints := app.blueprints ++ [bp] } := rfl
    rw [h1, ih]
    simp

/-- C6: create_app (via init_config) registers every blueprint of
all_blueprints, in order, and installs handle_exception as the error
handler for the Exception class. -/
theorem create_app_registers (uri track : String) (all_blueprints : List String) :
    (create_app uri track all_blueprints).blueprints = all_blueprints ∧
    (create_app uri track all_blueprints).error_handlers
      = [("Exception", handle_exception)] := by
  constructor
  · simp [create_app, init_config, CORS, Flask_new, register_blueprints_spec]
  · simp [create_app, init_config, CORS, Flask_new, register_blueprints_spec]

/-- C7: init_logging selects level INFO exactly when NAMESPACE is
PRODUCTION and DEBUG otherwise, and applies that one level to all four
handlers and to both the werkzeug and root loggers of the configuration
it installs. -/
theorem init_logging_uniform_level (ns host : String) :
    (((if ns = "PRODUCTION" then "INFO" else "DEBUG") = "INFO") ↔ ns = "PRODUCTION") ∧
    ((init_logging_config ns host).handlers.map Prod.fst
      = ["default", "console", "default_access", "console_access"]) ∧
    (∀ h ∈ (init_logging_config ns host).handlers,
        h.2.level = if ns = "PRODUCTION" then "INFO" else "DEBUG") ∧
    ((init_logging_config ns host).loggers.map Prod.fst = ["werkzeug", ""]) ∧
    (∀ lg ∈ (init_logging_config ns host).loggers,
        lg.2.level = if ns = "PRODUCTION" then "INFO" else "DEBUG") := by
  refine ⟨?_, rfl, ?_, rfl, ?_⟩
  · by_cases hns : ns = "PRODUCTION" <;> simp [hns]
  · intro h hh
    simp only [init_logging_config, log_dir, List.mem_cons, List.not_mem_nil, or_false] at hh
    rcases hh with h1 | h1 | h1 | h1 <;> subst h1 <;> rfl
  · intro lg hh
    simp only [init_logging_config, log_dir, List.mem_cons, List.not_mem_nil, or_false] at hh
    rcases hh with h1 | h1 <;> subst h1 <;> rfl

/-- enum_check succeeds exactly when every declared field with a non-empty
enum tuple has a parsed value that is None or a member of the tuple. -/
theorem enum_check_ok_iff (fields : List QueryField) (parsed : List (String × PyVal)) :
    enum_check fields parsed = Except.ok () ↔
      ∀ f ∈ fields, f.enum_values ≠ [] →
        ∀ v, parsed.lookup f.name = Option.some v →
          v = PyVal.none ∨ v ∈ f.enum_values := by
  induction fields with
  | nil => simp [enum_check]
  | cons field rest ih =>
    cases hl : parsed.lookup field.name with
    | none =>
      simp only [enum_check, hl]
      rw [ih]
      constructor
      · intro h f hf
        rcases List.mem_cons.mp hf with rfl | hf'
        · intro _ v hv
          rw [hl] at hv
          cases hv
        · exact h f hf'
      · intro h f hf
        exact h f (List.mem_cons_of_mem _ hf)
    | some value =>
      by_cases hcond : field.enum_values ≠ [] ∧ value ≠ PyVal.none ∧ value ∉ field.enum_values
      · simp only [enum_check, hl, if_pos hcond]
        constructor
        · intro h
          exact Except.noConfusion h
        · intro h
          exfalso
          rcases hcond with ⟨hne, hvn, hvm⟩
          rcases h field (List.mem_cons_self _ _) hne value hl with h1 | h1
          · exact hvn h1
          · exact hvm h1
      · simp only [enum_check, hl, if_neg hcond]
        rw [ih]
        constructor
        · intro h f hf
          rcases List.mem_cons.mp hf with rfl | hf'
          · intro hne v hv
            rw [hl] at hv
            injection hv with hv'
            subst hv'
            by_cases hv0 : value = PyVal.none
            · exact Or.inl hv0
            · right
              by_contra hmem
              exact hcond ⟨hne, hv0, hmem⟩
          · exact h f hf'
        · intro h f hf
          exact h f (List.mem_cons_of_mem _ hf)

/-- enum_check either succeeds or raises InvalidArgumentException; no other
outcome occurs. -/
theorem enum_check_shape (fields : List QueryField) (parsed : List (String × PyVal)) :
    enum_check fields parsed = Except.ok () ∨
      ∃ msg, enum_check fields parsed = Except.error (PyErr.invalidArgument msg) := by
  induction fields with
  | nil => exact Or.inl rfl
  | cons field rest ih =>
    cases hl : parsed.lookup field.name with
    | none => simpa only [enum_check, hl] using ih
    | some value =>
      by_cases hcond : field.enum_values ≠ [] ∧ value ≠ PyVal.none ∧ value ∉ field.enum_values
      · right
        refine ⟨"参数 [" ++ field.name ++ "] 的值必须在 ["
          ++ reprStr field.enum_values ++ "] 中", ?_⟩
        simp only [enum_check, hl, if_pos hcond]
      · simpa only [enum_check, hl, if_neg hcond] using ih

/-- A field whose parsed value violates its non-empty enum tuple makes
enum_check raise InvalidArgumentException. -/
theorem enum_check_error_of_bad (fields : List QueryField)
    (parsed : List (String × PyVal))
    (hbad : ∃ f ∈ fields, f.enum_values ≠ [] ∧
      ∃ v, parsed.lookup f.name = Option.some v ∧ v ≠ PyVal.none ∧ v ∉ f.enum_values) :
    ∃ msg, enum_check fields parsed = Except.error (PyErr.invalidArgument msg) := by
  obtain ⟨f, hf, hne, v, hv, hvn, hvm⟩ := hbad
  rcases enum_check_shape fields parsed with hok | herr
  · exfalso
    rcases (enum_check_ok_iff fields parsed).mp hok f hf hne v hv with h1 | h1
    · exact hvn h1
    · exact hvm h1
  · exact herr

/-- C1: for every query-model class and every successfully parsed request,
parse_args enforces enum validation - a declared field with a non-empty
enum tuple whose parsed value is neither None nor a member makes it raise
InvalidArgumentException, and when every such field's parsed value is None
or a member no enum-validation error is raised and an instance is
returned. -/
theorem parse_args_enum_validation (fields : List QueryField)
    (parsed : List (String × PyVal)) :
    ((∃ f ∈ fields, f.enum_values ≠ [] ∧
        ∃ v, parsed.lookup f.name = Option.some v ∧
          v ≠ PyVal.none ∧ v ∉ f.enum_values) →
      ∃ msg, (parse_args fields parsed).2
        = Except.error (PyErr.invalidArgument msg)) ∧
    ((∀ f ∈ fields, f.enum_values ≠ [] →
        ∀ v, parsed.lookup f.name = Option.some v →
          v = PyVal.none ∨ v ∈ f.enum_values) →
      (parse_args fields parsed).2
        = Except.ok (BaseQueryModel.init (fields.map QueryField.name) parsed)) := by
  constructor
  · intro hbad
    obtain ⟨msg, hmsg⟩ := enum_check_error_of_bad fields parsed hbad
    exact ⟨msg, by simp [parse_args, hmsg]⟩
  · intro hgood
    have hok := (enum_check_ok_iff fields parsed).mpr hgood
    simp [parse_args, hok]

/-- Dictionary lookup on a cons cell, with propositional key equality. -/
theorem lookup_cons_eq (a : String) (p : String × PyVal)
    (rest : List (String × PyVal)) :
    (p :: rest).lookup a = if a = p.1 then Option.some p.2 else rest.lookup a := by
  rcases p with ⟨k, v⟩
  by_cases h : a = k
  · simp [List.lookup_cons, h]
  · simp [List.lookup_cons, h, beq_false_of_ne h]

/-- delattr on a cons cell. -/
theorem delattr_cons (p : String × PyVal) (rest : Attrs) (k : String) :
    delattr (p :: rest) k
      = if p.1 = k then delattr rest k else p :: delattr rest k := by
  by_cases h : p.1 = k <;> simp [delattr, List.filter_cons, h]

/-- Deleting an attribute removes it from the attribute dictionary. -/
theorem lookup_delattr_self (a : Attrs) (k : String) :
    (delattr a k).lookup k = Option.none := by
  induction a with
  | nil => rfl
  | cons p rest ih =>
    rw [delattr_cons]
    by_cases hp : p.1 = k
    · rw [if_pos hp]
      exact ih
    · rw [if_neg hp, lookup_cons_eq, if_neg (fun h => hp h.symm)]
      exact ih

/-- delattr never introduces an attribute: an absent name stays absent. -/
theorem lookup_none_delattr (a : Attrs) (k nm : String)
    (h : a.lookup nm = Option.none) : (delattr a k).lookup nm = Option.none := by
  induction a with
  | nil => rfl
  | cons p rest ih =>
    rw [lookup_cons_eq] at h
    by_cases hpn : nm = p.1
    · rw [if_pos hpn] at h
      cases h
    · rw [if_neg hpn] at h
      rw [delattr_cons]
      by_cases hpk : p.1 = k
      · rw [if_pos hpk]
        exact ih h
      · rw [if_neg hpk, lookup_cons_eq, if_neg hpn]
        exact ih h

/-- The delattr loop of BaseQueryModel.__init__ never re-creates an
attribute: once absent, a name stays absent through the whole fold. -/
theorem foldl_del_preserves_none (kwargs : List (String × PyVal)) (nm : String) :
    ∀ (fm : List String) (a : Attrs), a.lookup nm = Option.none →
      ((fm.foldl
          (fun a field_name =>
            if (kwargs.lookup field_name).isSome then a else delattr a field_name)
          a).lookup nm = Option.none) := by
  intro fm
  induction fm with
  | nil => intro a h; exact h
  | cons n rest ih =>
    intro a h
    simp only [List.foldl_cons]
    by_cases hn : (kwargs.lookup n).isSome
    · rw [if_pos hn]
      exact ih a h
    · rw [if_neg hn]
      exact ih _ (lookup_none_delattr a n nm h)

/-- After the delattr loop, every declared field name that is not a key of
kwargs has no attribute. -/
theorem foldl_del_lookup_none (kwargs : List (String × PyVal)) (nm : String) :
    ∀ (fm : List String) (a : Attrs), nm ∈ fm → kwargs.lookup nm = Option.none →
      ((fm.foldl
          (fun a field_name =>
            if (kwargs.lookup field_name).isSome then a else delattr a field_name)
          a).lookup nm = Option.none) := by
  intro fm
  induction fm with
  | nil => intro a h; cases h
  | cons n rest ih =>
    intro a hmem hkw
    simp only [List.foldl_cons]
    rcases List.mem_cons.mp hmem with rfl | hmem'
    · rw [if_neg (by simp [hkw])]
      exact foldl_del_preserves_none kwargs nm rest _ (lookup_delattr_self a nm)
    · by_cases hn : (kwargs.lookup n).isSome
      · rw [if_pos hn]
        exact ih a hmem' hkw
      · rw [if_neg hn]
        exact ih _ hmem' hkw

/-- C8: a BaseQueryModel instance constructed with keyword arguments kwargs
keeps __storage__ equal to kwargs - as_dict returns exactly kwargs, item
membership is key membership in kwargs, get(item, default) is dictionary
get on kwargs - and every declared field name absent from kwargs has its
instance attribute deleted. -/
theorem base_query_model_storage_invariant (fm : List String)
    (kwargs : List (String × PyVal)) (item : String) (dflt : PyVal) :
    (BaseQueryModel.init fm kwargs).as_dict = kwargs ∧
    ((BaseQueryModel.init fm kwargs).contains item = true
        ↔ (kwargs.lookup item).isSome = true) ∧
    ((BaseQueryModel.init fm kwargs).get item dflt
        = match kwargs.lookup item with
          | Option.some v => v
          | Option.none => dflt) ∧
    (∀ nm ∈ fm, kwargs.lookup nm = Option.none →
      (BaseQueryModel.init fm kwargs).attrs.lookup nm = Option.none) := by
  refine ⟨rfl, Iff.rfl, rfl, ?_⟩
  intro nm hmem hkw
  exact foldl_del_lookup_none kwargs nm fm (BaseModel.init fm kwargs) hmem hkw

end FlaskScaffold
